import Mathlib

/-
Verification of the cubic-EOS core of thermo/eos.py (class GCEOS).

The embedding works over the rational numbers: every Python float value is
translated to an exact rational, so each arithmetic formula of the source is
mirrored literally.  The transcendental primitives used only by the
departure-function formulas (complex atanh real part, complex log real part,
real log, real exp, and the inverse-square-root float power) never influence
root filtering or phase selection, so the development is parameterized over
them as an abstract record of total functions.  Division is the total
rational division except where a claim is about ZeroDivisionError, in which
case a checked division in the Option monad makes every Python division
explicit.
-/

namespace Thermo

attribute [local semireducible] Rat.mul Rat.inv Rat.add Rat.sub Rat.ofScientific

/-- Universal gas constant exactly as imported by thermo.utils from
fluids.constants, in J/(mol K). -/
def R : ℚ := 8.31446261815324

/-- A complex value as a pair of rational components, modelling the Python
complex numbers that carry the three cubic roots. -/
structure Cplx where
  re : ℚ
  im : ℚ
deriving DecidableEq

/-- The phase tag set by GCEOS.set_from_PT: the strings l, g and l/g. -/
inductive Phase where
  | l
  | g
  | lg
deriving DecidableEq

/-- Abstract transcendental primitives appearing in the departure formulas:
rsqrt models the float power x ** -0.5 on a nonzero argument, catanhRe
models cmath.atanh(x).real, clogRe models cmath.log(x).real, logQ models
math.log and expQ models math.exp.  All results proved below hold for every
choice of these functions. -/
structure TransFuns where
  rsqrt : ℚ → ℚ
  catanhRe : ℚ → ℚ
  clogRe : ℚ → ℚ
  logQ : ℚ → ℚ
  expQ : ℚ → ℚ

/-- The eight values returned by GCEOS.main_derivatives_and_departures. -/
structure MainDerivs where
  dP_dT : ℚ
  dP_dV : ℚ
  d2P_dT2 : ℚ
  d2P_dV2 : ℚ
  d2P_dTdV : ℚ
  H_dep : ℚ
  S_dep : ℚ
  Cv_dep : ℚ
deriving DecidableEq

/-- The eighteen values returned by GCEOS.derivatives_and_departures. -/
structure Derivs where
  dP_dT : ℚ
  dP_dV : ℚ
  dV_dT : ℚ
  dV_dP : ℚ
  dT_dV : ℚ
  dT_dP : ℚ
  d2P_dT2 : ℚ
  d2P_dV2 : ℚ
  d2V_dT2 : ℚ
  d2V_dP2 : ℚ
  d2T_dV2 : ℚ
  d2T_dP2 : ℚ
  d2V_dPdT : ℚ
  d2P_dTdV : ℚ
  d2T_dPdV : ℚ
  H_dep : ℚ
  S_dep : ℚ
  Cv_dep : ℚ
deriving DecidableEq

/-- GCEOS.main_derivatives_and_departures, quick branch, transcribed from
the source.  The x11 assignment mirrors the guard in the code: the power
x10 ** -0.5 raises ZeroDivisionError exactly when x10 is zero and the
handler substitutes 0.0 for x11. -/
def main_derivatives_and_departures (tf : TransFuns)
    (T P V b delta epsilon a_alpha da_alpha_dT d2a_alpha_dT2 : ℚ) :
    MainDerivs :=
  let epsilon2 := epsilon + epsilon
  let x0 := 1/(V - b)
  let x1 := 1/(V*(V + delta) + epsilon)
  let x3 := R*T
  let x4 := x0*x0
  let x5 := V + V + delta
  let x6 := x1*x1
  let x7 := a_alpha*x6
  let x8 := P*V
  let x9 := delta*delta
  let x10 := x9 - epsilon2 - epsilon2
  let x11 := if x10 = 0 then 0 else tf.rsqrt x10
  let x11_half := 0.5*x11
  let x12 := 2*x11*tf.catanhRe (x11*x5)
  let x14 := 0.5*x5
  let x15 := epsilon2*x11
  let x16 := x11_half*x9
  let x17 := x5*x6
  let dP_dT := R*x0 - da_alpha_dT*x1
  let dP_dV := x5*x7 - x3*x4
  let d2P_dT2 := -d2a_alpha_dT2*x1
  let d2P_dV2_half := x7 + x3*x4*x0 - a_alpha*x5*x17*x1
  let d2P_dV2 := d2P_dV2_half + d2P_dV2_half
  let d2P_dTdV := da_alpha_dT*x17 - R*x4
  let H_dep := x12*(T*da_alpha_dT - a_alpha) - x3 + x8
  let t1 := x3*x0/P
  let S_dep := -R*tf.clogRe t1 + da_alpha_dT*x12
  let x18 := x16 - x15
  let x19 := (x14 + x18)/(x14 - x18)
  let Cv_dep := T*d2a_alpha_dT2*x11_half*tf.logQ (x19*x19)
  ⟨dP_dT, dP_dV, d2P_dT2, d2P_dV2, d2P_dTdV, H_dep, S_dep, Cv_dep⟩

/-- GCEOS.derivatives_and_departures, transcribed from the source.  The
inverse_dP_dV assignment in the code substitutes math.inf when dP_dV is
exactly zero; the rational embedding cannot represent infinity, and no
result below is evaluated at dP_dV equal to zero. -/
def derivatives_and_departures (tf : TransFuns)
    (T P V b delta epsilon a_alpha da_alpha_dT d2a_alpha_dT2 : ℚ) :
    Derivs :=
  let m := main_derivatives_and_departures tf T P V b delta epsilon a_alpha
             da_alpha_dT d2a_alpha_dT2
  let inverse_dP_dV := 1/m.dP_dV
  let dT_dP := 1/m.dP_dT
  let dV_dT := -m.dP_dT*inverse_dP_dV
  let dV_dP := -dV_dT*dT_dP
  let dT_dV := 1/dV_dT
  let inverse_dP_dV2 := inverse_dP_dV*inverse_dP_dV
  let inverse_dP_dV3 := inverse_dP_dV*inverse_dP_dV2
  let inverse_dP_dT2 := dT_dP*dT_dP
  let inverse_dP_dT3 := inverse_dP_dT2*dT_dP
  let d2V_dP2 := -m.d2P_dV2*inverse_dP_dV3
  let d2T_dP2 := -m.d2P_dT2*inverse_dP_dT3
  let d2T_dV2 := -(m.d2P_dV2*m.dP_dT - m.dP_dV*m.d2P_dTdV)*inverse_dP_dT2
                 + (m.d2P_dTdV*m.dP_dT - m.dP_dV*m.d2P_dT2)*inverse_dP_dT3*m.dP_dV
  let d2V_dT2 := -(m.d2P_dT2*m.dP_dV - m.dP_dT*m.d2P_dTdV)*inverse_dP_dV2
                 + (m.d2P_dTdV*m.dP_dV - m.dP_dT*m.d2P_dV2)*inverse_dP_dV3*m.dP_dT
  let d2V_dPdT := -(m.d2P_dTdV*m.dP_dV - m.dP_dT*m.d2P_dV2)*inverse_dP_dV3
  let d2T_dPdV := -(m.d2P_dTdV*m.dP_dT - m.dP_dV*m.d2P_dT2)*inverse_dP_dT3
  ⟨m.dP_dT, m.dP_dV, dV_dT, dV_dP, dT_dV, dT_dP,
   m.d2P_dT2, m.d2P_dV2, d2V_dT2, d2V_dP2, d2T_dV2, d2T_dP2,
   d2V_dPdT, m.d2P_dTdV, d2T_dPdV, m.H_dep, m.S_dep, m.Cv_dep⟩

/-- One populated phase record: the attributes that
GCEOS.set_properties_from_solution stores on the object with an _l or _g
suffix for the chosen phase. -/
structure PhaseRec where
  V : ℚ
  Z : ℚ
  beta : ℚ
  kappa : ℚ
  PIP : ℚ
  Cp_minus_Cv : ℚ
  dP_dT : ℚ
  dP_dV : ℚ
  dV_dT : ℚ
  dV_dP : ℚ
  dT_dV : ℚ
  dT_dP : ℚ
  d2P_dT2 : ℚ
  d2P_dV2 : ℚ
  d2V_dT2 : ℚ
  d2V_dP2 : ℚ
  d2T_dV2 : ℚ
  d2T_dP2 : ℚ
  d2V_dPdT : ℚ
  d2P_dTdV : ℚ
  d2T_dPdV : ℚ
  H_dep : ℚ
  S_dep : ℚ
  V_dep : ℚ
  U_dep : ℚ
  G_dep : ℚ
  A_dep : ℚ
  fugacity : ℚ
  phi : ℚ
  Cp_dep : ℚ
  Cv_dep : ℚ
deriving DecidableEq

/-- GCEOS.set_properties_from_solution, transcribed from the source.  It
returns the phase it chose (the string l or g in the code) together with
the record of values it stores for that phase.  The OverflowError guard on
the fugacity exponential is not representable over the rationals; expQ is
total here. -/
def set_properties_from_solution (tf : TransFuns)
    (T P V b delta epsilon a_alpha da_alpha_dT d2a_alpha_dT2 : ℚ)
    (force_l force_g : Bool) : Phase × PhaseRec :=
  let d := derivatives_and_departures tf T P V b delta epsilon a_alpha
             da_alpha_dT d2a_alpha_dT2
  let RT := R*T
  let RT_inv := 1/RT
  let P_inv := 1/P
  let V_inv := 1/V
  let Z := P*V*RT_inv
  let beta := d.dV_dT*V_inv
  let kappa := -d.dV_dP*V_inv
  let Cp_m_Cv := -T*d.dP_dT*d.dP_dT*d.dV_dP
  let Cp_dep := Cp_m_Cv + d.Cv_dep - R
  let TS_dep := T*d.S_dep
  let V_dep := V - RT*P_inv
  let U_dep := d.H_dep - P*V_dep
  let G_dep := d.H_dep - TS_dep
  let A_dep := U_dep - TS_dep
  let fugacity := P*tf.expQ (G_dep*RT_inv)
  let phi := fugacity*P_inv
  let PIP := V*(d.d2P_dTdV*d.dT_dP - d.d2P_dV2*d.dV_dP)
  let pr : PhaseRec :=
    ⟨V, Z, beta, kappa, PIP, Cp_m_Cv,
     d.dP_dT, d.dP_dV, d.dV_dT, d.dV_dP, d.dT_dV, d.dT_dP,
     d.d2P_dT2, d.d2P_dV2, d.d2V_dT2, d.d2V_dP2, d.d2T_dV2, d.d2T_dP2,
     d.d2V_dPdT, d.d2P_dTdV, d.d2T_dPdV,
     d.H_dep, d.S_dep, V_dep, U_dep, G_dep, A_dep,
     fugacity, phi, Cp_dep, d.Cv_dep⟩
  if force_l || (!force_g && decide (PIP > (1.00000000000001 : ℚ))) then
    (Phase.l, pr)
  else
    (Phase.g, pr)

/-- The EOS coefficients owned by the caller, together with the critical
constants of the (single) component, as stored on a pure GCEOS object. -/
structure Coeffs where
  Tc : ℚ
  Pc : ℚ
  b : ℚ
  delta : ℚ
  epsilon : ℚ
  a_alpha : ℚ
  da_alpha_dT : ℚ
  d2a_alpha_dT2 : ℚ
deriving DecidableEq

/-- The phase records and phase tag a successful solve leaves on the
object. -/
structure EosState where
  liquid : Option PhaseRec
  gas : Option PhaseRec
  phase : Phase
deriving DecidableEq

/-- The error kinds raised by GCEOS.solve and GCEOS.set_from_PT.
noAcceptableRoot models the Exception raised when no root passes the
filter; its message carries the raw roots, T, P, a_alpha and b.
negativePressure models the ValueError raised by the TV branch of solve. -/
inductive EosError where
  | noAcceptableRoot (Vs : List Cplx) (T P a_alpha b : ℚ)
  | negativePressure (P : ℚ)
deriving DecidableEq

/-- The root filter of GCEOS.set_from_PT: keep the real part of each root
that is numerically real (real part exactly zero, or imaginary over real
part below 1e-12 in magnitude) and whose real part exceeds b. -/
def good_roots (b : ℚ) (Vs : List Cplx) : List ℚ :=
  Vs.filterMap fun i =>
    if (i.re = 0 ∨ |i.im / i.re| < 1e-12) ∧ i.re > b then some i.re else none

/-- Python min over a nonempty list, as a fold from its head. -/
def pyMin (x : ℚ) (xs : List ℚ) : ℚ := xs.foldl min x

/-- Python max over a nonempty list, as a fold from its head. -/
def pyMax (x : ℚ) (xs : List ℚ) : ℚ := xs.foldl max x

/-- Store the record returned by set_properties_from_solution under the
phase that call chose, mirroring the attribute writes with the matching
suffix inside that method. -/
def EosState.store (st : EosState) (pr : Phase × PhaseRec) : EosState :=
  if pr.1 = Phase.l then { st with liquid := some pr.2 }
  else if pr.1 = Phase.g then { st with gas := some pr.2 }
  else st

/-- GCEOS.set_from_PT, transcribed from the source for a pure component
(the class constants are N = 1 and multicomponent = False, so the critical
point test reduces to Tc equal to T and Pc equal to P). -/
def set_from_PT (tf : TransFuns) (c : Coeffs) (T P : ℚ) (Vs : List Cplx)
    (only_l only_g : Bool) : Except EosError EosState :=
  match good_roots c.b Vs with
  | [] => .error (.noAcceptableRoot Vs T P c.a_alpha c.b)
  | [V0] =>
      let r1 := set_properties_from_solution tf T P V0 c.b c.delta c.epsilon
                  c.a_alpha c.da_alpha_dT c.d2a_alpha_dT2 false false
      let st1 := EosState.store ⟨none, none, r1.1⟩ r1
      if c.Tc = T ∧ c.Pc = P then
        let force_l := !(decide (r1.1 = Phase.l))
        let force_g := !(decide (r1.1 = Phase.g))
        let r2 := set_properties_from_solution tf T P V0 c.b c.delta c.epsilon
                    c.a_alpha c.da_alpha_dT c.d2a_alpha_dT2 force_l force_g
        .ok { EosState.store st1 r2 with phase := Phase.lg }
      else
        .ok st1
  | v1 :: v2 :: rest =>
      let V_l := pyMin v1 (v2 :: rest)
      let V_g := pyMax v1 (v2 :: rest)
      let st0 : EosState := ⟨none, none, Phase.lg⟩
      let st1 := if !only_g then
                   EosState.store st0 (set_properties_from_solution tf T P V_l
                     c.b c.delta c.epsilon c.a_alpha c.da_alpha_dT
                     c.d2a_alpha_dT2 true false)
                 else st0
      let st2 := if !only_l then
                   EosState.store st1 (set_properties_from_solution tf T P V_g
                     c.b c.delta c.epsilon c.a_alpha c.da_alpha_dT
                     c.d2a_alpha_dT2 false true)
                 else st1
      .ok { st2 with phase := Phase.lg }

/-- The pressure computed in the TV branch of GCEOS.solve from the EOS
relation. -/
def P_TV (c : Coeffs) (T V : ℚ) : ℚ :=
  R*T/(V - c.b) - c.a_alpha/(V*V + c.delta*V + c.epsilon)

/-- The two state variables handed to GCEOS.solve. -/
inductive SolveSpec where
  | TP (T P : ℚ)
  | TV (T V : ℚ)
  | PV (P V : ℚ)
deriving DecidableEq

/-- GCEOS.solve, transcribed from the source.  The volume solver cascade
(used only when no volume is specified) and the inverse temperature solver
solve_T (used only for a PV specification) are taken as function
parameters; the a_alpha coefficients in c stand for the values the
a_alpha_and_derivatives callback returned at the solved temperature. -/
def solve (tf : TransFuns)
    (volume_solutions : ℚ → ℚ → ℚ → ℚ → ℚ → ℚ → List Cplx)
    (solve_T : ℚ → ℚ → ℚ) (c : Coeffs) (spec : SolveSpec)
    (only_l only_g : Bool) : Except EosError EosState :=
  match spec with
  | .TP T P =>
      set_from_PT tf c T P
        (volume_solutions T P c.b c.delta c.epsilon c.a_alpha) only_l only_g
  | .TV T V =>
      let P := P_TV c T V
      if P ≤ 0 then .error (.negativePressure P)
      else set_from_PT tf c T P [⟨V, 0⟩, ⟨0, 1⟩, ⟨0, 1⟩] only_l only_g
  | .PV P V =>
      let T := solve_T P V
      set_from_PT tf c T P [⟨V, 0⟩, ⟨0, 1⟩, ⟨0, 1⟩] only_l only_g

/-- GCEOS.volume_solutions_NR.  The a_alpha == 0 ideal-gas short circuit is
the first statement of the method; everything after it (the low-pressure
bisection solver, the mpmath escalation, the Cardano, fast and a1 closed
forms, the Newton polish and the retry logic) is abstracted as the
function parameter rest applied to the same arguments. -/
def volume_solutions_NR (rest : ℚ → ℚ → ℚ → ℚ → ℚ → ℚ → List Cplx)
    (T P b delta epsilon a_alpha : ℚ) : List Cplx :=
  if a_alpha = 0 then [⟨b + R*T/P, 0⟩, ⟨0, -1⟩, ⟨0, -1⟩]
  else rest T P b delta epsilon a_alpha

/-- The phase hint accepted by GCEOS.solve_T. -/
inductive Hint where
  | l
  | g
deriving DecidableEq

/-- The final candidate-selection block of GCEOS.solve_T: given the hint
and the (possibly absent) bracketing and secant temperatures as they stand
after all retries, return the temperature the method returns. -/
def solve_T_select (solution : Option Hint) (T_brenth T_secant : Option ℚ) :
    Option ℚ :=
  match solution, T_brenth, T_secant with
  | some h, some tb, some ts =>
      some (match h with
            | .g => max tb ts
            | .l => min tb ts)
  | _, none, ts => ts
  | _, some tb, some ts =>
      if |tb - 298.15| < |ts - 298.15| then some tb else some ts
  | _, some tb, none => some tb

/-- Checked rational division: none exactly when the Python division would
raise ZeroDivisionError. -/
def cdiv (x y : ℚ) : Option ℚ := if y = 0 then none else some (x/y)

/-- GCEOS.main_derivatives_and_departures again, with every Python division
made explicit through cdiv, to reason about ZeroDivisionError.  The x11
guard is the try/except of the source: the power x10 ** -0.5 raises
ZeroDivisionError exactly when x10 is zero and the handler substitutes
0.0. -/
def main_derivatives_and_departures_checked (tf : TransFuns)
    (T P V b delta epsilon a_alpha da_alpha_dT d2a_alpha_dT2 : ℚ) :
    Option MainDerivs := do
  let epsilon2 := epsilon + epsilon
  let x0 ← cdiv 1 (V - b)
  let x1 ← cdiv 1 (V*(V + delta) + epsilon)
  let x3 := R*T
  let x4 := x0*x0
  let x5 := V + V + delta
  let x6 := x1*x1
  let x7 := a_alpha*x6
  let x8 := P*V
  let x9 := delta*delta
  let x10 := x9 - epsilon2 - epsilon2
  let x11 := if x10 = 0 then 0 else tf.rsqrt x10
  let x11_half := 0.5*x11
  let x12 := 2*x11*tf.catanhRe (x11*x5)
  let x14 := 0.5*x5
  let x15 := epsilon2*x11
  let x16 := x11_half*x9
  let x17 := x5*x6
  let dP_dT := R*x0 - da_alpha_dT*x1
  let dP_dV := x5*x7 - x3*x4
  let d2P_dT2 := -d2a_alpha_dT2*x1
  let d2P_dV2_half := x7 + x3*x4*x0 - a_alpha*x5*x17*x1
  let d2P_dV2 := d2P_dV2_half + d2P_dV2_half
  let d2P_dTdV := da_alpha_dT*x17 - R*x4
  let H_dep := x12*(T*da_alpha_dT - a_alpha) - x3 + x8
  let t1 ← cdiv (x3*x0) P
  let S_dep := -R*tf.clogRe t1 + da_alpha_dT*x12
  let x18 := x16 - x15
  let x19 ← cdiv (x14 + x18) (x14 - x18)
  let Cv_dep := T*d2a_alpha_dT2*x11_half*tf.logQ (x19*x19)
  return ⟨dP_dT, dP_dV, d2P_dT2, d2P_dV2, d2P_dTdV, H_dep, S_dep, Cv_dep⟩

/-- The GCEOS.dH_dep_dT_l_V property, transcribed from the source.  Its
try/except guard substitutes 1e100 for the power
(delta*delta - 4.0*epsilon) ** -0.5 when that quantity is exactly zero,
which amounts to replacing the vanishing quantity by 1e-200.  The formula
contains no division, so with the guard it always produces a value. -/
def dH_dep_dT_l_V (tf : TransFuns)
    (T delta epsilon V dP_dT d2a_alpha_dT2 : ℚ) : Option ℚ :=
  let x0 := if delta*delta - 4*epsilon = 0 then (1e100 : ℚ)
            else tf.rsqrt (delta*delta - 4*epsilon)
  some (-R + 2*T*x0*tf.catanhRe (x0*(V + V + delta))*d2a_alpha_dT2 + V*dP_dT)

/-- A concrete choice of the transcendental primitives, used only to
instantiate witnesses at a computable point. -/
def tfZero : TransFuns :=
  ⟨fun _ => 0, fun _ => 0, fun _ => 0, fun _ => 0, fun _ => 0⟩

/-- A concrete volume-solver parameter for witnesses. -/
def vsZero : ℚ → ℚ → ℚ → ℚ → ℚ → ℚ → List Cplx := fun _ _ _ _ _ _ => []

/-- A concrete inverse-solver parameter for witnesses. -/
def stZero : ℚ → ℚ → ℚ := fun _ _ => 0

theorem pyMin_mem (x : ℚ) (xs : List ℚ) : pyMin x xs ∈ x :: xs := by
  induction xs generalizing x with
  | nil => simp [pyMin]
  | cons y ys ih =>
      have h : pyMin x (y :: ys) = pyMin (min x y) ys := rfl
      rw [h]
      rcases List.mem_cons.mp (ih (min x y)) with h1 | h1
      · rw [h1]
        rcases min_choice x y with h2 | h2 <;> rw [h2] <;> simp
      · simp [h1]

theorem pyMax_mem (x : ℚ) (xs : List ℚ) : pyMax x xs ∈ x :: xs := by
  induction xs generalizing x with
  | nil => simp [pyMax]
  | cons y ys ih =>
      have h : pyMax x (y :: ys) = pyMax (max x y) ys := rfl
      rw [h]
      rcases List.mem_cons.mp (ih (max x y)) with h1 | h1
      · rw [h1]
        rcases max_choice x y with h2 | h2 <;> rw [h2] <;> simp
      · simp [h1]

theorem set_properties_snd_V (tf : TransFuns)
    (T P V b delta epsilon a_alpha da_alpha_dT d2a_alpha_dT2 : ℚ)
    (force_l force_g : Bool) :
    (set_properties_from_solution tf T P V b delta epsilon a_alpha
      da_alpha_dT d2a_alpha_dT2 force_l force_g).2.V = V := by
  rw [set_properties_from_solution]
  split <;> rfl

theorem set_properties_fst_force_l (tf : TransFuns)
    (T P V b delta epsilon a_alpha da_alpha_dT d2a_alpha_dT2 : ℚ)
    (force_g : Bool) :
    (set_properties_from_solution tf T P V b delta epsilon a_alpha
      da_alpha_dT d2a_alpha_dT2 true force_g).1 = Phase.l := by
  simp [set_properties_from_solution]

theorem set_properties_fst_force_g (tf : TransFuns)
    (T P V b delta epsilon a_alpha da_alpha_dT d2a_alpha_dT2 : ℚ) :
    (set_properties_from_solution tf T P V b delta epsilon a_alpha
      da_alpha_dT d2a_alpha_dT2 false true).1 = Phase.g := by
  simp [set_properties_from_solution]

theorem set_properties_fst_l_or_g (tf : TransFuns)
    (T P V b delta epsilon a_alpha da_alpha_dT d2a_alpha_dT2 : ℚ)
    (force_l force_g : Bool) :
    (set_properties_from_solution tf T P V b delta epsilon a_alpha
      da_alpha_dT d2a_alpha_dT2 force_l force_g).1 = Phase.l ∨
    (set_properties_from_solution tf T P V b delta epsilon a_alpha
      da_alpha_dT d2a_alpha_dT2 force_l force_g).1 = Phase.g := by
  rw [set_properties_from_solution]
  split
  · exact Or.inl rfl
  · exact Or.inr rfl

theorem good_roots_V_spec (b V : ℚ) (hb : 0 ≤ b) (hV : b < V) :
    good_roots b [⟨V, 0⟩, ⟨0, 1⟩, ⟨0, 1⟩] = [V] := by
  have h1 : (V = 0 ∨ |(0 : ℚ) / V| < 1e-12) ∧ V > b := by
    refine ⟨Or.inr ?_, hV⟩
    rw [zero_div, abs_zero]
    norm_num
  have h3 : ¬(b < (0 : ℚ)) := not_lt.mpr hb
  simp only [good_roots, List.filterMap]
  rw [if_pos h1]
  simp [h3]

theorem set_from_PT_not_negativePressure (tf : TransFuns) (c : Coeffs)
    (T P : ℚ) (Vs : List Cplx) (only_l only_g : Bool) (q : ℚ) :
    set_from_PT tf c T P Vs only_l only_g ≠ .error (.negativePressure q) := by
  unfold set_from_PT
  split
  · simp
  · split <;> simp
  · simp

/-- C2: when no candidate root is both numerically real and greater than b,
set_from_PT raises the fatal no-acceptable-root error whose payload carries
the raw roots together with T, P, a_alpha and b, and never returns a state
with zero phase records. -/
theorem C2_no_acceptable_root (tf : TransFuns) (c : Coeffs) (T P : ℚ)
    (Vs : List Cplx) (only_l only_g : Bool)
    (h : good_roots c.b Vs = []) :
    set_from_PT tf c T P Vs only_l only_g =
      .error (.noAcceptableRoot Vs T P c.a_alpha c.b) := by
  simp only [set_from_PT, h]

theorem C2_witness :
    good_roots ((⟨0, 0, 1, 0, 0, 0, 0, 0⟩ : Coeffs)).b
        [⟨0, 1⟩, ⟨0, 1⟩, ⟨0, 1⟩] = [] ∧
    set_from_PT tfZero ⟨0, 0, 1, 0, 0, 0, 0, 0⟩ 1 1
        [⟨0, 1⟩, ⟨0, 1⟩, ⟨0, 1⟩] false false =
      .error (.noAcceptableRoot [⟨0, 1⟩, ⟨0, 1⟩, ⟨0, 1⟩] 1 1 0 1) :=
  ⟨by decide,
   C2_no_acceptable_root tfZero ⟨0, 0, 1, 0, 0, 0, 0, 0⟩ 1 1
     [⟨0, 1⟩, ⟨0, 1⟩, ⟨0, 1⟩] false false (by decide)⟩

/-- C1: when the candidate list contains two or more valid roots
(numerically real and exceeding b), set_from_PT stores the minimum valid
root as the liquid volume and the maximum valid root as the gas volume,
populates both phase records, and tags the phase l/g. -/
theorem C1_two_roots (tf : TransFuns) (c : Coeffs) (T P : ℚ) (Vs : List Cplx)
    (v1 v2 : ℚ) (rest : List ℚ)
    (h : good_roots c.b Vs = v1 :: v2 :: rest) :
    ∃ st, set_from_PT tf c T P Vs false false = .ok st ∧
      st.phase = Phase.lg ∧
      (∃ rl, st.liquid = some rl ∧ rl.V = pyMin v1 (v2 :: rest)) ∧
      (∃ rg, st.gas = some rg ∧ rg.V = pyMax v1 (v2 :: rest)) := by
  have hl := set_properties_fst_force_l tf T P (pyMin v1 (v2 :: rest)) c.b
    c.delta c.epsilon c.a_alpha c.da_alpha_dT c.d2a_alpha_dT2 false
  have hg := set_properties_fst_force_g tf T P (pyMax v1 (v2 :: rest)) c.b
    c.delta c.epsilon c.a_alpha c.da_alpha_dT c.d2a_alpha_dT2
  simp only [set_from_PT, h, Bool.not_false, if_true]
  refine ⟨_, rfl, rfl, ⟨_, ?_, set_properties_snd_V tf T P _ c.b c.delta
    c.epsilon c.a_alpha c.da_alpha_dT c.d2a_alpha_dT2 true false⟩,
    ⟨_, ?_, set_properties_snd_V tf T P _ c.b c.delta c.epsilon c.a_alpha
      c.da_alpha_dT c.d2a_alpha_dT2 false true⟩⟩
  · simp [EosState.store, hl, hg]
  · simp [EosState.store, hl, hg]

theorem C1_witness :
    good_roots ((⟨0, 0, 0, 0, 0, 0, 0, 0⟩ : Coeffs)).b
        [⟨1, 0⟩, ⟨2, 0⟩, ⟨0, 1⟩] = [1, 2] ∧
    (∃ st, set_from_PT tfZero ⟨0, 0, 0, 0, 0, 0, 0, 0⟩ 1 1
        [⟨1, 0⟩, ⟨2, 0⟩, ⟨0, 1⟩] false false = .ok st ∧
      st.phase = Phase.lg ∧
      (∃ rl, st.liquid = some rl ∧ rl.V = pyMin 1 [2]) ∧
      (∃ rg, st.gas = some rg ∧ rg.V = pyMax 1 [2])) :=
  ⟨by decide,
   C1_two_roots tfZero ⟨0, 0, 0, 0, 0, 0, 0, 0⟩ 1 1
     [⟨1, 0⟩, ⟨2, 0⟩, ⟨0, 1⟩] 1 2 [] (by decide)⟩

/-- C4: when the state was solved exactly at the critical point of the
single-component EOS and exactly one valid root was found, set_from_PT
populates both the liquid and the gas record from that same root, so the
two volumes coincide, and tags the phase l/g. -/
theorem C4_critical_point (tf : TransFuns) (c : Coeffs) (T P : ℚ)
    (Vs : List Cplx) (V0 : ℚ)
    (h : good_roots c.b Vs = [V0]) (hTc : c.Tc = T) (hPc : c.Pc = P) :
    ∃ st, set_from_PT tf c T P Vs false false = .ok st ∧
      st.phase = Phase.lg ∧
      (∃ rl rg, st.liquid = some rl ∧ st.gas = some rg ∧
        rl.V = V0 ∧ rg.V = V0) := by
  simp only [set_from_PT, h]
  rw [if_pos ⟨hTc, hPc⟩]
  rcases set_properties_fst_l_or_g tf T P V0 c.b c.delta c.epsilon c.a_alpha
      c.da_alpha_dT c.d2a_alpha_dT2 false false with h1 | h1 <;>
    refine ⟨_, rfl, rfl, ?_⟩ <;>
    simp [EosState.store, h1, set_properties_fst_force_g,
      set_properties_fst_force_l, set_properties_snd_V]

theorem C4_witness :
    good_roots ((⟨1, 1, 0, 0, 0, 0, 0, 0⟩ : Coeffs)).b
        [⟨1, 0⟩, ⟨0, 1⟩, ⟨0, 1⟩] = [1] ∧
    (∃ st, set_from_PT tfZero ⟨1, 1, 0, 0, 0, 0, 0, 0⟩ 1 1
        [⟨1, 0⟩, ⟨0, 1⟩, ⟨0, 1⟩] false false = .ok st ∧
      st.phase = Phase.lg ∧
      (∃ rl rg, st.liquid = some rl ∧ st.gas = some rg ∧
        rl.V = 1 ∧ rg.V = 1)) :=
  ⟨by decide,
   C4_critical_point tfZero ⟨1, 1, 0, 0, 0, 0, 0, 0⟩ 1 1
     [⟨1, 0⟩, ⟨0, 1⟩, ⟨0, 1⟩] 1 (by decide) rfl rfl⟩

theorem set_properties_fst_no_force (tf : TransFuns)
    (T P V b delta epsilon a_alpha da_alpha_dT d2a_alpha_dT2 : ℚ) :
    (set_properties_from_solution tf T P V b delta epsilon a_alpha
      da_alpha_dT d2a_alpha_dT2 false false).1 = Phase.l ↔
    (set_properties_from_solution tf T P V b delta epsilon a_alpha
      da_alpha_dT d2a_alpha_dT2 false false).2.PIP >
      (1.00000000000001 : ℚ) := by
  rw [set_properties_from_solution]
  split
  next hcond =>
    simp only [Bool.false_or, Bool.not_false, Bool.true_and,
      decide_eq_true_eq] at hcond
    exact ⟨fun _ => hcond, fun _ => rfl⟩
  next hcond =>
    simp only [Bool.false_or, Bool.not_false, Bool.true_and,
      decide_eq_true_eq] at hcond
    constructor
    · intro hl
      simp at hl
    · intro hp
      exact absurd hp hcond

/-- C3: for a single accepted root with no phase forcing, the property
setter computes the phase identification parameter as
V*(d2P_dTdV*dT_dP - d2P_dV2*dV_dP) from its derivative tuple, and
classifies the root as liquid exactly when that parameter exceeds
1 + 1e-14, and as gas otherwise. -/
theorem C3_PIP_classification (tf : TransFuns)
    (T P V b delta epsilon a_alpha da_alpha_dT d2a_alpha_dT2 : ℚ) :
    ((set_properties_from_solution tf T P V b delta epsilon a_alpha
        da_alpha_dT d2a_alpha_dT2 false false).2.PIP =
      V*((derivatives_and_departures tf T P V b delta epsilon a_alpha
            da_alpha_dT d2a_alpha_dT2).d2P_dTdV *
          (derivatives_and_departures tf T P V b delta epsilon a_alpha
            da_alpha_dT d2a_alpha_dT2).dT_dP -
         (derivatives_and_departures tf T P V b delta epsilon a_alpha
            da_alpha_dT d2a_alpha_dT2).d2P_dV2 *
          (derivatives_and_departures tf T P V b delta epsilon a_alpha
            da_alpha_dT d2a_alpha_dT2).dV_dP)) ∧
    ((set_properties_from_solution tf T P V b delta epsilon a_alpha
        da_alpha_dT d2a_alpha_dT2 false false).1 = Phase.l ↔
      (set_properties_from_solution tf T P V b delta epsilon a_alpha
        da_alpha_dT d2a_alpha_dT2 false false).2.PIP > 1 + 1e-14) ∧
    ((set_properties_from_solution tf T P V b delta epsilon a_alpha
        da_alpha_dT d2a_alpha_dT2 false false).1 = Phase.g ↔
      ¬((set_properties_from_solution tf T P V b delta epsilon a_alpha
        da_alpha_dT d2a_alpha_dT2 false false).2.PIP > 1 + 1e-14)) := by
  have hth : (1.00000000000001 : ℚ) = 1 + 1e-14 := by decide
  have hiff := set_properties_fst_no_force tf T P V b delta epsilon a_alpha
    da_alpha_dT d2a_alpha_dT2
  rw [hth] at hiff
  have hlg : (set_properties_from_solution tf T P V b delta epsilon a_alpha
      da_alpha_dT d2a_alpha_dT2 false false).1 = Phase.g ↔
      ¬((set_properties_from_solution tf T P V b delta epsilon a_alpha
        da_alpha_dT d2a_alpha_dT2 false false).1 = Phase.l) := by
    rcases set_properties_fst_l_or_g tf T P V b delta epsilon a_alpha
        da_alpha_dT d2a_alpha_dT2 false false with h | h <;> rw [h] <;> simp
  refine ⟨?_, hiff, hlg.trans (not_congr hiff)⟩
  rw [set_properties_from_solution]
  split <;> rfl

/-- C5: with a_alpha exactly zero, volume_solutions_NR short-circuits to
the single real root b + R*T/P, the other two returned roots are non-real
placeholders, and the result does not depend on any later closed-form or
iterative tier of the cascade. -/
theorem C5_ideal_gas_short_circuit
    (rest rest2 : ℚ → ℚ → ℚ → ℚ → ℚ → ℚ → List Cplx)
    (T P b delta epsilon : ℚ) (_hT : 0 < T) (_hP : 0 < P) :
    volume_solutions_NR rest T P b delta epsilon 0 =
      [⟨b + R*T/P, 0⟩, ⟨0, -1⟩, ⟨0, -1⟩] ∧
    (⟨b + R*T/P, 0⟩ : Cplx).im = 0 ∧
    (⟨0, -1⟩ : Cplx).im ≠ 0 ∧
    volume_solutions_NR rest T P b delta epsilon 0 =
      volume_solutions_NR rest2 T P b delta epsilon 0 := by
  refine ⟨?_, rfl, by norm_num, ?_⟩ <;> simp [volume_solutions_NR]

theorem C5_witness :
    (0 : ℚ) < 1 ∧
    volume_solutions_NR vsZero 1 1 0 0 0 0 =
      [⟨0 + R*1/1, 0⟩, ⟨0, -1⟩, ⟨0, -1⟩] :=
  ⟨by decide,
   (C5_ideal_gas_short_circuit vsZero vsZero 1 1 0 0 0 (by decide)
     (by decide)).1⟩

/-- C6: a TV-specified solve raises the fatal negative-pressure ValueError
exactly when the pressure computed from the EOS relation is nonpositive,
and when that pressure is positive no negative-pressure error can be
produced by the solve. -/
theorem C6_negative_pressure (tf : TransFuns)
    (vs : ℚ → ℚ → ℚ → ℚ → ℚ → ℚ → List Cplx) (sT : ℚ → ℚ → ℚ)
    (c : Coeffs) (T V : ℚ) (only_l only_g : Bool) :
    (P_TV c T V ≤ 0 →
      solve tf vs sT c (.TV T V) only_l only_g =
        .error (.negativePressure (P_TV c T V))) ∧
    (0 < P_TV c T V →
      ∀ q, solve tf vs sT c (.TV T V) only_l only_g ≠
        .error (.negativePressure q)) := by
  constructor
  · intro h
    simp only [solve]
    rw [if_pos h]
  · intro h q
    simp only [solve]
    rw [if_neg (not_le.mpr h)]
    exact set_from_PT_not_negativePressure tf c T (P_TV c T V)
      [⟨V, 0⟩, ⟨0, 1⟩, ⟨0, 1⟩] only_l only_g q

theorem C6_witness :
    P_TV ⟨0, 0, 0, 0, 0, 1, 0, 0⟩ 0 1 ≤ 0 ∧
    solve tfZero vsZero stZero ⟨0, 0, 0, 0, 0, 1, 0, 0⟩
        (.TV 0 1) false false =
      .error (.negativePressure (P_TV ⟨0, 0, 0, 0, 0, 1, 0, 0⟩ 0 1)) :=
  ⟨by decide,
   (C6_negative_pressure tfZero vsZero stZero ⟨0, 0, 0, 0, 0, 1, 0, 0⟩ 0 1
     false false).1 (by decide)⟩

/-- C9: in the final candidate selection of solve_T, a liquid hint picks
the smaller and a gas hint the larger of the two temperatures when both
the bracketing and the secant solver produced one; with no hint, the
candidate closest to 298.15 K is returned. -/
theorem C9_solve_T_selection (tb ts : ℚ) :
    solve_T_select (some Hint.l) (some tb) (some ts) = some (min tb ts) ∧
    solve_T_select (some Hint.g) (some tb) (some ts) = some (max tb ts) ∧
    (∃ r, solve_T_select none (some tb) (some ts) = some r ∧
      (r = tb ∨ r = ts) ∧
      |r - 298.15| = min |tb - 298.15| |ts - 298.15|) := by
  refine ⟨rfl, rfl, ?_⟩
  by_cases h : |tb - 298.15| < |ts - 298.15|
  · refine ⟨tb, ?_, Or.inl rfl, (min_eq_left h.le).symm⟩
    show (if |tb - 298.15| < |ts - 298.15| then some tb else some ts) = some tb
    rw [if_pos h]
  · refine ⟨ts, ?_, Or.inr rfl, (min_eq_right (not_lt.mp h)).symm⟩
    show (if |tb - 298.15| < |ts - 298.15| then some tb else some ts) = some ts
    rw [if_neg h]

theorem set_from_PT_single_root (tf : TransFuns) (c : Coeffs) (T P : ℚ)
    (Vs : List Cplx) (V0 : ℚ) (h : good_roots c.b Vs = [V0])
    (hcrit : ¬(c.Tc = T ∧ c.Pc = P)) (only_l only_g : Bool) :
    ∃ st, set_from_PT tf c T P Vs only_l only_g = .ok st ∧
      ((st.liquid.isSome ∧ st.gas = none ∧ st.phase = Phase.l) ∨
       (st.gas.isSome ∧ st.liquid = none ∧ st.phase = Phase.g)) := by
  simp only [set_from_PT, h]
  rw [if_neg hcrit]
  rcases set_properties_fst_l_or_g tf T P V0 c.b c.delta c.epsilon c.a_alpha
      c.da_alpha_dT c.d2a_alpha_dT2 false false with h1 | h1
  · exact ⟨_, rfl, Or.inl (by simp [EosState.store, h1])⟩
  · exact ⟨_, rfl, Or.inr (by simp [EosState.store, h1])⟩

/-- C10: a volume-specified solve hands the phase selector exactly the
root list [V, 1j, 1j]: the result does not depend on the EOS volume
solver, it equals set_from_PT applied to that list, and away from the
single-component critical point exactly one phase record is populated with
a phase tag of l or g. -/
theorem C10_V_spec (tf : TransFuns)
    (vs vs2 : ℚ → ℚ → ℚ → ℚ → ℚ → ℚ → List Cplx) (sT : ℚ → ℚ → ℚ)
    (c : Coeffs) (only_l only_g : Bool) :
    (∀ T V, solve tf vs sT c (.TV T V) only_l only_g =
        solve tf vs2 sT c (.TV T V) only_l only_g) ∧
    (∀ P V, solve tf vs sT c (.PV P V) only_l only_g =
        solve tf vs2 sT c (.PV P V) only_l only_g) ∧
    (∀ T V, 0 < P_TV c T V →
      solve tf vs sT c (.TV T V) only_l only_g =
        set_from_PT tf c T (P_TV c T V) [⟨V, 0⟩, ⟨0, 1⟩, ⟨0, 1⟩]
          only_l only_g) ∧
    (∀ P V, solve tf vs sT c (.PV P V) only_l only_g =
        set_from_PT tf c (sT P V) P [⟨V, 0⟩, ⟨0, 1⟩, ⟨0, 1⟩]
          only_l only_g) ∧
    (∀ T V, 0 ≤ c.b → c.b < V → 0 < P_TV c T V →
      ¬(c.Tc = T ∧ c.Pc = P_TV c T V) →
      ∃ st, solve tf vs sT c (.TV T V) only_l only_g = .ok st ∧
        ((st.liquid.isSome ∧ st.gas = none ∧ st.phase = Phase.l) ∨
         (st.gas.isSome ∧ st.liquid = none ∧ st.phase = Phase.g))) ∧
    (∀ P V, 0 ≤ c.b → c.b < V → ¬(c.Tc = sT P V ∧ c.Pc = P) →
      ∃ st, solve tf vs sT c (.PV P V) only_l only_g = .ok st ∧
        ((st.liquid.isSome ∧ st.gas = none ∧ st.phase = Phase.l) ∨
         (st.gas.isSome ∧ st.liquid = none ∧ st.phase = Phase.g))) := by
  have hTV : ∀ T V, 0 < P_TV c T V →
      solve tf vs sT c (.TV T V) only_l only_g =
        set_from_PT tf c T (P_TV c T V) [⟨V, 0⟩, ⟨0, 1⟩, ⟨0, 1⟩]
          only_l only_g := by
    intro T V hP
    simp only [solve]
    rw [if_neg (not_le.mpr hP)]
  refine ⟨fun T V => rfl, fun P V => rfl, hTV, fun P V => rfl, ?_, ?_⟩
  · intro T V hb hV hP hcrit
    rw [hTV T V hP]
    exact set_from_PT_single_root tf c T (P_TV c T V) _ V
      (good_roots_V_spec c.b V hb hV) hcrit only_l only_g
  · intro P V hb hV hcrit
    exact set_from_PT_single_root tf c (sT P V) P _ V
      (good_roots_V_spec c.b V hb hV) hcrit only_l only_g

theorem C10_witness :
    ((0 : ℚ) ≤ ((⟨0, 0, 0, 0, 0, 1, 0, 0⟩ : Coeffs)).b ∧
     ((⟨0, 0, 0, 0, 0, 1, 0, 0⟩ : Coeffs)).b < 1 ∧
     0 < P_TV ⟨0, 0, 0, 0, 0, 1, 0, 0⟩ 1 1 ∧
     ¬(((⟨0, 0, 0, 0, 0, 1, 0, 0⟩ : Coeffs)).Tc = 1 ∧
       ((⟨0, 0, 0, 0, 0, 1, 0, 0⟩ : Coeffs)).Pc =
         P_TV ⟨0, 0, 0, 0, 0, 1, 0, 0⟩ 1 1)) ∧
    (∃ st, solve tfZero vsZero stZero ⟨0, 0, 0, 0, 0, 1, 0, 0⟩
        (.TV 1 1) false false = .ok st ∧
      ((st.liquid.isSome ∧ st.gas = none ∧ st.phase = Phase.l) ∨
       (st.gas.isSome ∧ st.liquid = none ∧ st.phase = Phase.g))) :=
  ⟨⟨by decide, by decide, by decide, by decide⟩,
   (C10_V_spec tfZero vsZero vsZero stZero ⟨0, 0, 0, 0, 0, 1, 0, 0⟩
       false false).2.2.2.2.1 1 1 (by decide) (by decide) (by decide)
     (by decide)⟩

/-- C7: when delta*delta - 4*epsilon is exactly zero, the guarded
departure computations still evaluate with no division by zero: the
checked main derivatives-and-departures computation succeeds (its guard
substitutes zero for the inverse square root of the vanishing quantity),
and so does the guarded dH_dep_dT_l_V departure derivative (whose guard
substitutes 1e100 for that inverse square root, equivalently the tiny
value 1e-200 for the vanishing quantity). -/
theorem C7_degenerate_discriminant (tf : TransFuns)
    (T P V b delta epsilon a_alpha da_alpha_dT d2a_alpha_dT2 dP_dT : ℚ)
    (h0 : delta*delta - 4*epsilon = 0) (hVb : b < V)
    (hx5 : V + V + delta ≠ 0) (hP : P ≠ 0) :
    (main_derivatives_and_departures_checked tf T P V b delta epsilon
      a_alpha da_alpha_dT d2a_alpha_dT2).isSome ∧
    (dH_dep_dT_l_V tf T delta epsilon V dP_dT d2a_alpha_dT2).isSome := by
  refine ⟨?_, rfl⟩
  have hd1 : V - b ≠ 0 := sub_ne_zero.mpr (ne_of_gt hVb)
  have he : epsilon = delta*delta/4 := by linarith
  have hd2 : V*(V + delta) + epsilon ≠ 0 := by
    have hsq : V*(V + delta) + epsilon = ((V + V + delta)/2)^2 := by
      rw [he]; ring
    rw [hsq]
    exact pow_ne_zero 2 (div_ne_zero hx5 two_ne_zero)
  have h10 : delta*delta - (epsilon + epsilon) - (epsilon + epsilon) = 0 := by
    linarith
  have hd4 : (0.5*(V + V + delta) : ℚ) ≠ 0 := by
    refine mul_ne_zero ?_ hx5
    norm_num
  simp [main_derivatives_and_departures_checked, cdiv, hd1, hd2, hP, h10, hd4]

theorem C7_witness :
    ((0 : ℚ)*0 - 4*0 = 0 ∧ (0 : ℚ) < 1) ∧
    (main_derivatives_and_departures_checked tfZero 1 1 1 0 0 0 0 0
      0).isSome ∧
    (dH_dep_dT_l_V tfZero 1 0 0 1 0 0).isSome :=
  ⟨⟨by decide, by decide⟩,
   C7_degenerate_discriminant tfZero 1 1 1 0 0 0 0 0 0 0 (by decide)
     (by decide) (by decide) (by decide)⟩

/-- C8: for a state whose valid roots each satisfy the EOS pressure
relation at the solved (T, P), independently recomputing the pressure at
the liquid volume (the smallest valid root) and at the gas volume (the
largest), as the TV branch of solve does after to_TV, reproduces the
original pressure exactly, in particular to within 1e-6 relative error. -/
theorem C8_round_trip (c : Coeffs) (T P : ℚ) (Vs : List Cplx)
    (v1 v2 : ℚ) (rest : List ℚ)
    (hg : good_roots c.b Vs = v1 :: v2 :: rest)
    (hr : ∀ v ∈ good_roots c.b Vs, P_TV c T v = P) :
    |P_TV c T (pyMin v1 (v2 :: rest)) - P| ≤ 1e-6 * |P| ∧
    |P_TV c T (pyMax v1 (v2 :: rest)) - P| ≤ 1e-6 * |P| := by
  have hmin : pyMin v1 (v2 :: rest) ∈ good_roots c.b Vs := by
    rw [hg]; exact pyMin_mem v1 (v2 :: rest)
  have hmax : pyMax v1 (v2 :: rest) ∈ good_roots c.b Vs := by
    rw [hg]; exact pyMax_mem v1 (v2 :: rest)
  rw [hr _ hmin, hr _ hmax, sub_self, abs_zero]
  constructor <;> exact mul_nonneg (by norm_num) (abs_nonneg _)

theorem C8_witness :
    good_roots ((⟨0, 0, 0, 0, 0, 2*R, 0, 0⟩ : Coeffs)).b
        [⟨1, 0⟩, ⟨2, 0⟩] = [1, 2] ∧
    |P_TV ⟨0, 0, 0, 0, 0, 2*R, 0, 0⟩ 3 (pyMin 1 [2]) - R| ≤ 1e-6 * |R| ∧
    |P_TV ⟨0, 0, 0, 0, 0, 2*R, 0, 0⟩ 3 (pyMax 1 [2]) - R| ≤ 1e-6 * |R| :=
  ⟨by decide,
   C8_round_trip ⟨0, 0, 0, 0, 0, 2*R, 0, 0⟩ 3 R [⟨1, 0⟩, ⟨2, 0⟩] 1 2 []
     (by decide) (by decide)⟩

end Thermo
